import Mathlib

/-!
Verification of the LifeOS core: capacity states, the state manager,
the task modulator and the calendar modulator, shallowly embedded from
the TypeScript source.  Task minutes and caps are natural numbers;
calendar timestamps are rationals measured in milliseconds (mirroring
JavaScript `Date.getTime()`), so durations may be negative or
fractional exactly as in the source.
-/

set_option maxHeartbeats 1000000

namespace LifeOS

/-! ### Capacity states (types/capacity.ts) -/

/-- The six capacity states a user can declare. -/
inductive CapacityState where
  | foggy
  | anxious
  | flat
  | overstimulated
  | driven
  | productive
deriving DecidableEq, Repr

/-- Runtime string representation of a capacity state. -/
def capacityToString : CapacityState → String
  | .foggy => "foggy"
  | .anxious => "anxious"
  | .flat => "flat"
  | .overstimulated => "overstimulated"
  | .driven => "driven"
  | .productive => "productive"

/-- All valid capacity states for validation (`CAPACITY_STATES`). -/
def CAPACITY_STATES : List String :=
  ["foggy", "anxious", "flat", "overstimulated", "driven", "productive"]

/-- `isValidCapacity`: membership test against `CAPACITY_STATES`. -/
def isValidCapacity (value : String) : Bool :=
  CAPACITY_STATES.contains value

/-- Recover the enumeration member named by a valid state string. -/
def parseCapacity (s : String) : Option CapacityState :=
  if s = "foggy" then some .foggy
  else if s = "anxious" then some .anxious
  else if s = "flat" then some .flat
  else if s = "overstimulated" then some .overstimulated
  else if s = "driven" then some .driven
  else if s = "productive" then some .productive
  else none

/-- Default state when no capacity is declared (`DEFAULT_CAPACITY`). -/
def DEFAULT_CAPACITY : CapacityState := .foggy

/-! ### Task types (types/task.ts) -/

inductive TaskPriority where
  | essential
  | important
  | normal
  | optional
deriving DecidableEq, Repr

inductive TaskDomain where
  | work
  | personal
deriving DecidableEq, Repr

inductive CognitiveLoad where
  | minimal
  | low
  | medium
  | high
deriving DecidableEq, Repr

/-- A task from an external task manager. -/
structure Task where
  id : String
  title : String
  description : Option String := none
  priority : TaskPriority
  domain : TaskDomain
  cognitiveLoad : CognitiveLoad
  estimatedMinutes : Option Nat := none
  visible : Bool
  source : String
deriving DecidableEq, Repr

/-- Task visibility configuration per capacity state. -/
structure TaskVisibilityConfig where
  visiblePriorities : List TaskPriority
  manageableLoads : List CognitiveLoad
  maxVisibleTasks : Nat
deriving DecidableEq, Repr

/-! ### Calendar types (types/calendar.ts) -/

inductive CalendarSource where
  | work
  | personal
deriving DecidableEq, Repr

inductive EventIntent where
  | focus
  | collaborative
  | recovery
  | transition
  | flexible
  | essential
deriving DecidableEq, Repr

/-- A calendar event; start and end times are rational milliseconds. -/
structure CalendarEvent where
  id : String
  title : String
  description : Option String := none
  startTime : ℚ
  endTime : ℚ
  source : CalendarSource
  intent : EventIntent
  active : Bool
  calendarProvider : String
deriving DecidableEq, Repr

/-- Calendar intent configuration per capacity state. -/
structure CalendarIntentConfig where
  honoredIntents : List EventIntent
  suggestCancellation : Bool
  addRecoveryBuffers : Bool
  bufferMinutes : ℚ
deriving DecidableEq, Repr

/-! ### Config types (types/config.ts) -/

structure WorkloadConfig where
  maxDailyMinutes : Nat
  maxCalendarHours : ℚ
  showWorkTasks : Bool
  showPersonalTasks : Bool
  energyBudget : Nat
deriving DecidableEq, Repr

/-- Fallback configuration for graceful degradation; the fallback
state is kept as its runtime string value. -/
structure FallbackConfig where
  fallbackState : String
  canAutoDegrade : Bool
  degradeTriggers : List String
deriving DecidableEq, Repr

/-- Complete configuration for a single capacity state. -/
structure StateConfig where
  state : String
  description : String
  taskVisibility : TaskVisibilityConfig
  calendarIntent : CalendarIntentConfig
  workload : WorkloadConfig
  fallback : FallbackConfig
deriving DecidableEq, Repr

/-! ### Default state configurations (state/config.ts) -/

def foggyConfig : StateConfig :=
  { state := "foggy"
    description := "Low clarity, minimal cognitive resources. Safe defaults active."
    taskVisibility :=
      { visiblePriorities := [.essential]
        manageableLoads := [.minimal, .low]
        maxVisibleTasks := 3 }
    calendarIntent :=
      { honoredIntents := [.essential, .recovery]
        suggestCancellation := true
        addRecoveryBuffers := true
        bufferMinutes := 30 }
    workload :=
      { maxDailyMinutes := 60
        maxCalendarHours := 2
        showWorkTasks := true
        showPersonalTasks := false
        energyBudget := 3 }
    fallback :=
      { fallbackState := "foggy"
        canAutoDegrade := false
        degradeTriggers := [] } }

def anxiousConfig : StateConfig :=
  { state := "anxious"
    description := "High stress/worry. Reduced stimulation, essential tasks only."
    taskVisibility :=
      { visiblePriorities := [.essential]
        manageableLoads := [.minimal]
        maxVisibleTasks := 2 }
    calendarIntent :=
      { honoredIntents := [.essential, .recovery, .flexible]
        suggestCancellation := true
        addRecoveryBuffers := true
        bufferMinutes := 45 }
    workload :=
      { maxDailyMinutes := 45
        maxCalendarHours := 1
        showWorkTasks := true
        showPersonalTasks := false
        energyBudget := 2 }
    fallback :=
      { fallbackState := "foggy"
        canAutoDegrade := true
        degradeTriggers := ["overwhelm", "panic", "shutdown"] } }

def flatConfig : StateConfig :=
  { state := "flat"
    description := "Low energy/motivation. Gentle engagement with small wins."
    taskVisibility :=
      { visiblePriorities := [.essential, .important]
        manageableLoads := [.minimal, .low]
        maxVisibleTasks := 4 }
    calendarIntent :=
      { honoredIntents := [.essential, .recovery, .flexible, .collaborative]
        suggestCancellation := false
        addRecoveryBuffers := true
        bufferMinutes := 20 }
    workload :=
      { maxDailyMinutes := 90
        maxCalendarHours := 3
        showWorkTasks := true
        showPersonalTasks := true
        energyBudget := 4 }
    fallback :=
      { fallbackState := "foggy"
        canAutoDegrade := true
        degradeTriggers := ["exhaustion", "withdrawal"] } }

def overstimulatedConfig : StateConfig :=
  { state := "overstimulated"
    description := "Sensory/cognitive overload. Maximum protection, recovery focus."
    taskVisibility :=
      { visiblePriorities := [.essential]
        manageableLoads := [.minimal]
        maxVisibleTasks := 1 }
    calendarIntent :=
      { honoredIntents := [.essential, .recovery]
        suggestCancellation := true
        addRecoveryBuffers := true
        bufferMinutes := 60 }
    workload :=
      { maxDailyMinutes := 30
        maxCalendarHours := 1
        showWorkTasks := false
        showPersonalTasks := false
        energyBudget := 1 }
    fallback :=
      { fallbackState := "foggy"
        canAutoDegrade := true
        degradeTriggers := ["meltdown", "shutdown", "overwhelm"] } }

def drivenConfig : StateConfig :=
  { state := "driven"
    description := "High capacity. Full workload available, all systems active."
    taskVisibility :=
      { visiblePriorities := [.essential, .important, .normal, .optional]
        manageableLoads := [.minimal, .low, .medium, .high]
        maxVisibleTasks := 15 }
    calendarIntent :=
      { honoredIntents := [.focus, .collaborative, .recovery, .transition, .flexible, .essential]
        suggestCancellation := false
        addRecoveryBuffers := false
        bufferMinutes := 10 }
    workload :=
      { maxDailyMinutes := 480
        maxCalendarHours := 8
        showWorkTasks := true
        showPersonalTasks := true
        energyBudget := 10 }
    fallback :=
      { fallbackState := "flat"
        canAutoDegrade := true
        degradeTriggers := ["fatigue", "distraction", "depletion"] } }

def productiveConfig : StateConfig :=
  { state := "productive"
    description := "Peak capacity. Ready for a challenging workload."
    taskVisibility :=
      { visiblePriorities := [.essential, .important, .normal, .optional]
        manageableLoads := [.minimal, .low, .medium, .high]
        maxVisibleTasks := 25 }
    calendarIntent :=
      { honoredIntents := [.focus, .collaborative, .recovery, .transition, .flexible, .essential]
        suggestCancellation := false
        addRecoveryBuffers := false
        bufferMinutes := 5 }
    workload :=
      { maxDailyMinutes := 600
        maxCalendarHours := 10
        showWorkTasks := true
        showPersonalTasks := true
        energyBudget := 12 }
    fallback :=
      { fallbackState := "driven"
        canAutoDegrade := true
        degradeTriggers := ["burnout", "overextension", "fatigue"] } }

def socialConfig : StateConfig :=
  { state := "social"
    description := "Ready for social engagements. Prioritizes connection over tasks."
    taskVisibility :=
      { visiblePriorities := [.essential, .important]
        manageableLoads := [.minimal, .low]
        maxVisibleTasks := 5 }
    calendarIntent :=
      { honoredIntents := [.essential, .collaborative, .recovery, .flexible]
        suggestCancellation := false
        addRecoveryBuffers := true
        bufferMinutes := 15 }
    workload :=
      { maxDailyMinutes := 120
        maxCalendarHours := 6
        showWorkTasks := false
        showPersonalTasks := true
        energyBudget := 7 }
    fallback :=
      { fallbackState := "flat"
        canAutoDegrade := true
        degradeTriggers := ["social fatigue", "overwhelmed", "withdrawal"] } }

/-- `DEFAULT_STATE_CONFIGS` as the key/value entry list of the source
object literal, in source order (it also carries a seventh `social`
entry beyond the six enumeration members). -/
def DEFAULT_STATE_CONFIGS : List (String × StateConfig) :=
  [("foggy", foggyConfig),
   ("anxious", anxiousConfig),
   ("flat", flatConfig),
   ("overstimulated", overstimulatedConfig),
   ("driven", drivenConfig),
   ("productive", productiveConfig),
   ("social", socialConfig)]

/-- Object indexing `DEFAULT_STATE_CONFIGS[state]` for a valid
enumeration member. -/
def configFor : CapacityState → StateConfig
  | .foggy => foggyConfig
  | .anxious => anxiousConfig
  | .flat => flatConfig
  | .overstimulated => overstimulatedConfig
  | .driven => drivenConfig
  | .productive => productiveConfig

/-! ### Task modulator (modulation/task-modulator.ts) -/

structure TaskModulationResult where
  totalTasks : Nat
  visibleTasks : List Task
  hiddenTasks : List Task
  totalMinutes : Nat
  workloadLimitReached : Bool
  remainingCapacity : Nat
deriving DecidableEq, Repr

/-- A task contributes its estimate, defaulting to 15 minutes. -/
def taskMinutes (t : Task) : Nat :=
  t.estimatedMinutes.getD 15

/-- Priority rank used by `sortByPriority` (essential first). -/
def priorityOrder : TaskPriority → Nat
  | .essential => 0
  | .important => 1
  | .normal => 2
  | .optional => 3

/-- `isTaskEligible`: domain, priority and cognitive-load filters. -/
def TaskModulator.isTaskEligible (task : Task) (visibility : TaskVisibilityConfig)
    (workload : WorkloadConfig) : Bool :=
  if task.domain == .work && !workload.showWorkTasks then false
  else if task.domain == .personal && !workload.showPersonalTasks then false
  else if !(visibility.visiblePriorities.contains task.priority) then false
  else if !(visibility.manageableLoads.contains task.cognitiveLoad) then false
  else true

/-- `sortByPriority`: stable ascending sort by priority rank. -/
def TaskModulator.sortByPriority (tasks : List Task) : List Task :=
  tasks.mergeSort (fun a b => decide (priorityOrder a.priority ≤ priorityOrder b.priority))

/-- The first two steps of `TaskModulator.modulate`: the eligibility
filter followed by the priority sort. -/
def TaskModulator.sortedEligible (tasks : List Task) (config : StateConfig) : List Task :=
  TaskModulator.sortByPriority (tasks.filter
    (fun t => TaskModulator.isTaskEligible t config.taskVisibility config.workload))

/-- Sum of the estimated minutes of a list of tasks. -/
def sumMinutes (l : List Task) : Nat :=
  (l.map taskMinutes).sum

/-- Minutes of the `i`-th task of a list (0 beyond the end). -/
def minutesAt (l : List Task) (i : Nat) : Nat :=
  match l.drop i with
  | [] => 0
  | t :: _ => taskMinutes t

/-- The admission loop of `TaskModulator.modulate`: walk the sorted
list, breaking (with the limit flag set) at the first task that fails
the count bound or the minute bound. -/
def TaskModulator.admitLoop (maxV maxD : Nat) :
    List Task → List Task → Nat → List Task × Nat × Bool
  | [], acc, total => (acc, total, false)
  | t :: ts, acc, total =>
    if maxV ≤ acc.length then (acc, total, true)
    else if maxD < total + taskMinutes t then (acc, total, true)
    else TaskModulator.admitLoop maxV maxD ts
      (acc ++ [{ t with visible := true }]) (total + taskMinutes t)

/-- `TaskModulator.modulate`. -/
def TaskModulator.modulate (tasks : List Task) (config : StateConfig) : TaskModulationResult :=
  let sortedTasks := TaskModulator.sortedEligible tasks config
  let res := TaskModulator.admitLoop config.taskVisibility.maxVisibleTasks
    config.workload.maxDailyMinutes sortedTasks [] 0
  let visibleTasks := res.1
  let totalMinutes := res.2.1
  let workloadLimitReached := res.2.2
  let hiddenTasks := (tasks.filter
      (fun t => !(visibleTasks.any (fun v => v.id == t.id)))).map
    (fun t => { t with visible := false })
  { totalTasks := tasks.length
    visibleTasks := visibleTasks
    hiddenTasks := hiddenTasks
    totalMinutes := totalMinutes
    workloadLimitReached := workloadLimitReached
    remainingCapacity := config.workload.maxDailyMinutes - totalMinutes }

/-! ### Calendar modulator (modulation/calendar-modulator.ts) -/

/-- A recovery buffer between events. -/
structure RecoveryBuffer where
  startTime : ℚ
  endTime : ℚ
  durationMinutes : ℚ
  afterEventId : String
deriving DecidableEq, Repr

structure CalendarModulationResult where
  totalEvents : Nat
  activeEvents : List CalendarEvent
  suggestedCancellations : List CalendarEvent
  recoveryBuffers : List RecoveryBuffer
  totalHours : ℚ
  calendarLimitExceeded : Bool
deriving DecidableEq, Repr

/-- `getEventDuration`: event duration in minutes (may be negative). -/
def CalendarModulator.getEventDuration (event : CalendarEvent) : ℚ :=
  (event.endTime - event.startTime) / (1000 * 60)

/-- Event duration in hours, as computed inside the modulation loop. -/
def CalendarModulator.eventHours (event : CalendarEvent) : ℚ :=
  CalendarModulator.getEventDuration event / 60

/-- `shouldHonorEvent`: essential is always honored, otherwise the
intent must be in the honored list. -/
def CalendarModulator.shouldHonorEvent (event : CalendarEvent)
    (config : CalendarIntentConfig) : Bool :=
  if event.intent == .essential then true
  else config.honoredIntents.contains event.intent

/-- The event loop of `CalendarModulator.modulate`. -/
def CalendarModulator.processEvents (calendarIntent : CalendarIntentConfig)
    (workload : WorkloadConfig) :
    List CalendarEvent → List CalendarEvent → List CalendarEvent → ℚ →
    List CalendarEvent × List CalendarEvent × ℚ
  | [], activeEvents, suggestedCancellations, totalHours =>
    (activeEvents, suggestedCancellations, totalHours)
  | event :: rest, activeEvents, suggestedCancellations, totalHours =>
    if CalendarModulator.shouldHonorEvent event calendarIntent then
      if totalHours + CalendarModulator.eventHours event ≤ workload.maxCalendarHours then
        CalendarModulator.processEvents calendarIntent workload rest
          (activeEvents ++ [{ event with active := true }]) suggestedCancellations
          (totalHours + CalendarModulator.eventHours event)
      else if event.intent == .essential then
        CalendarModulator.processEvents calendarIntent workload rest
          (activeEvents ++ [{ event with active := true }]) suggestedCancellations
          (totalHours + CalendarModulator.eventHours event)
      else
        CalendarModulator.processEvents calendarIntent workload rest
          activeEvents (suggestedCancellations ++ [{ event with active := false }]) totalHours
    else if calendarIntent.suggestCancellation then
      CalendarModulator.processEvents calendarIntent workload rest
        activeEvents (suggestedCancellations ++ [{ event with active := false }]) totalHours
    else
      CalendarModulator.processEvents calendarIntent workload rest
        activeEvents suggestedCancellations totalHours

/-- `generateRecoveryBuffers`: gap-based buffer insertion between
consecutive events. -/
def CalendarModulator.generateRecoveryBuffers (bufferMinutes : ℚ) :
    List CalendarEvent → List RecoveryBuffer
  | [] => []
  | [_] => []
  | current :: next :: rest =>
    let gapMinutes := (next.startTime - current.endTime) / (1000 * 60)
    if bufferMinutes ≤ gapMinutes then
      { startTime := current.endTime
        endTime := current.endTime + bufferMinutes * 60 * 1000
        durationMinutes := bufferMinutes
        afterEventId := current.id } ::
        CalendarModulator.generateRecoveryBuffers bufferMinutes (next :: rest)
    else if 0 < gapMinutes then
      { startTime := current.endTime
        endTime := next.startTime
        durationMinutes := gapMinutes
        afterEventId := current.id } ::
        CalendarModulator.generateRecoveryBuffers bufferMinutes (next :: rest)
    else
      CalendarModulator.generateRecoveryBuffers bufferMinutes (next :: rest)

/-- `CalendarModulator.modulate`. -/
def CalendarModulator.modulate (events : List CalendarEvent) (config : StateConfig) :
    CalendarModulationResult :=
  let sortedEvents := events.mergeSort (fun a b => decide (a.startTime ≤ b.startTime))
  let res := CalendarModulator.processEvents config.calendarIntent config.workload
    sortedEvents [] [] 0
  let recoveryBuffers :=
    if config.calendarIntent.addRecoveryBuffers then
      CalendarModulator.generateRecoveryBuffers config.calendarIntent.bufferMinutes res.1
    else []
  { totalEvents := events.length
    activeEvents := res.1
    suggestedCancellations := res.2.1
    recoveryBuffers := recoveryBuffers
    totalHours := res.2.2
    calendarLimitExceeded := decide (config.workload.maxCalendarHours < res.2.2) }

/-! ### State manager (state/manager.ts) -/

/-- State change event delivered to the observer callback. -/
structure StateChangeEvent where
  previousState : CapacityState
  newState : CapacityState
  timestamp : Int
  reason : Option String
  isDegradation : Bool
deriving DecidableEq, Repr

/-- The manager's mutable fields. -/
structure ManagerState where
  currentState : CapacityState
  stateSetAt : Int
deriving DecidableEq, Repr

/-- Capacity order used by `isDegradation` (lowest capacity first). -/
def capacityOrderList : List CapacityState :=
  [.overstimulated, .anxious, .foggy, .flat, .driven, .productive]

/-- `isDegradation`: moving to a lower index means less capacity. -/
def StateManager.isDegradation (fromState toState : CapacityState) : Bool :=
  decide (capacityOrderList.indexOf toState < capacityOrderList.indexOf fromState)

/-- `getConfig`: configuration of the manager's current state. -/
def StateManager.getConfig (m : ManagerState) : StateConfig :=
  configFor m.currentState

/-- `setState`, returning the boolean result, the updated manager
fields and the event passed to the observer callback (if any). -/
def StateManager.setState (m : ManagerState) (newState : String) (reason : Option String)
    (now : Int) : Bool × ManagerState × Option StateChangeEvent :=
  if !(isValidCapacity newState) then (false, m, none)
  else if newState == capacityToString m.currentState then (false, m, none)
  else
    match parseCapacity newState with
    | none => (false, m, none)
    | some c =>
      let event : StateChangeEvent :=
        { previousState := m.currentState
          newState := c
          timestamp := now
          reason := reason
          isDegradation := StateManager.isDegradation m.currentState c }
      (true, { currentState := c, stateSetAt := now }, some event)

/-- `degrade`: fallback transition guarded by the fallback rule. -/
def StateManager.degrade (m : ManagerState) (trigger : String) (now : Int) :
    Bool × ManagerState × Option StateChangeEvent :=
  let config := StateManager.getConfig m
  if !config.fallback.canAutoDegrade then (false, m, none)
  else if capacityToString m.currentState == config.fallback.fallbackState then (false, m, none)
  else StateManager.setState m config.fallback.fallbackState
    (some ("degradation triggered: " ++ trigger)) now

/-- ASCII lowercasing of a string, character by character (the model
of JavaScript `toLowerCase` on the ASCII strings this system uses). -/
def toLowerCase (s : String) : String :=
  ⟨s.data.map Char.toLower⟩

/-- `checkDegradationTriggers`: lowercase each indicator and test
membership in the current state's trigger list. -/
def StateManager.checkDegradationTriggers (m : ManagerState) (indicators : List String) :
    List String :=
  indicators.filter
    (fun i => (StateManager.getConfig m).fallback.degradeTriggers.contains (toLowerCase i))

/-! ### Spec-side definitions and concrete inputs -/

/-- Per-adjacent-pair recovery-buffer rule, written from the spec's
words: a full buffer of exactly `bufferMinutes` when the gap is at
least `bufferMinutes`, a buffer spanning the whole gap when the gap is
positive but smaller, and no buffer otherwise. -/
def CalendarModulator.pairBufferRule (bufferMinutes : ℚ) (current next : CalendarEvent) :
    Option RecoveryBuffer :=
  let gapMinutes := (next.startTime - current.endTime) / (1000 * 60)
  if bufferMinutes ≤ gapMinutes then
    some { startTime := current.endTime
           endTime := current.endTime + bufferMinutes * 60 * 1000
           durationMinutes := bufferMinutes
           afterEventId := current.id }
  else if 0 < gapMinutes then
    some { startTime := current.endTime
           endTime := next.startTime
           durationMinutes := gapMinutes
           afterEventId := current.id }
  else none

/-- Concrete event with end before start (negative duration): one
hour backwards, so minus one hour. -/
def negEvent : CalendarEvent :=
  { id := "e", title := "t", startTime := 3600000, endTime := 0,
    source := .work, intent := .essential, active := false, calendarProvider := "g" }

/-- Concrete event from minute 0 to minute 10. -/
def demoE1 : CalendarEvent :=
  { id := "a", title := "a", startTime := 0, endTime := 600000,
    source := .work, intent := .essential, active := false, calendarProvider := "g" }

/-- Concrete event from minute 25 to minute 35 (15-minute gap after
`demoE1`). -/
def demoE2 : CalendarEvent :=
  { id := "b", title := "b", startTime := 1500000, endTime := 2100000,
    source := .work, intent := .essential, active := false, calendarProvider := "g" }

/-- Concrete tasks with pairwise distinct ids. -/
def demoTasks : List Task :=
  [{ id := "1", title := "a", priority := .essential, domain := .work,
     cognitiveLoad := .minimal, estimatedMinutes := some 20, visible := true, source := "s" },
   { id := "2", title := "b", priority := .important, domain := .work,
     cognitiveLoad := .low, visible := true, source := "s" },
   { id := "3", title := "c", priority := .normal, domain := .work,
     cognitiveLoad := .medium, visible := true, source := "s" },
   { id := "4", title := "d", priority := .optional, domain := .personal,
     cognitiveLoad := .high, visible := true, source := "s" }]

/-- Concrete eight-hour essential event (milliseconds 0 to 28800000). -/
def demoBigEssential : CalendarEvent :=
  { id := "big", title := "big", startTime := 0, endTime := 28800000,
    source := .work, intent := .essential, active := false, calendarProvider := "g" }

/-- Concrete one-hour recovery event right after `demoBigEssential`. -/
def demoRecovery : CalendarEvent :=
  { id := "rec", title := "rec", startTime := 28800000, endTime := 32400000,
    source := .personal, intent := .recovery, active := false, calendarProvider := "g" }

/-! ### Theorems -/

/-- The string form of an enumeration member is always valid. -/
theorem isValidCapacity_toString (s : CapacityState) :
    isValidCapacity (capacityToString s) = true := by
  cases s <;> decide

/-- C9: every member of the capacity-state enumeration has exactly one
entry in the catalog (lookup is total and unambiguous), and that
config's fallback state is itself a valid enumeration member. -/
theorem configCatalog_total_and_fallback_valid (s : CapacityState) :
    DEFAULT_STATE_CONFIGS.countP (fun p => p.1 == capacityToString s) = 1 ∧
    DEFAULT_STATE_CONFIGS.lookup (capacityToString s) = some (configFor s) ∧
    isValidCapacity (configFor s).fallback.fallbackState = true := by
  cases s <;> decide

/-- C8: `checkDegradationTriggers` returns exactly the indicators whose
membership in the current state's trigger set holds under
case-insensitive comparison (either side may differ in letter case). -/
theorem checkDegradationTriggers_case_insensitive (m : ManagerState)
    (indicators : List String) :
    StateManager.checkDegradationTriggers m indicators =
      indicators.filter (fun i =>
        (StateManager.getConfig m).fallback.degradeTriggers.any
          (fun t => toLowerCase i == toLowerCase t)) := by
  obtain ⟨s, setAt⟩ := m
  apply List.filter_congr
  intro i _
  cases s <;>
    simp [StateManager.getConfig, configFor, foggyConfig, anxiousConfig, flatConfig,
      overstimulatedConfig, drivenConfig, productiveConfig, List.contains,
      List.elem_cons, List.any_cons,
      show toLowerCase "overwhelm" = "overwhelm" from by decide,
      show toLowerCase "panic" = "panic" from by decide,
      show toLowerCase "shutdown" = "shutdown" from by decide,
      show toLowerCase "exhaustion" = "exhaustion" from by decide,
      show toLowerCase "withdrawal" = "withdrawal" from by decide,
      show toLowerCase "meltdown" = "meltdown" from by decide,
      show toLowerCase "fatigue" = "fatigue" from by decide,
      show toLowerCase "distraction" = "distraction" from by decide,
      show toLowerCase "depletion" = "depletion" from by decide,
      show toLowerCase "burnout" = "burnout" from by decide,
      show toLowerCase "overextension" = "overextension" from by decide] <;>
  rfl

/-- C6: `setState` rejects an invalid state name and a same-state
transition with `false`, unchanged fields and no observer event;
otherwise it overwrites the state, records the timestamp and emits
exactly one `StateChangeEvent` with the documented fields. -/
theorem setState_semantics (m : ManagerState) (newState : String) (reason : Option String)
    (now : Int) :
    (isValidCapacity newState = false →
      StateManager.setState m newState reason now = (false, m, none)) ∧
    (newState = capacityToString m.currentState →
      StateManager.setState m newState reason now = (false, m, none)) ∧
    (isValidCapacity newState = true → newState ≠ capacityToString m.currentState →
      ∃ c, parseCapacity newState = some c ∧
        StateManager.setState m newState reason now =
          (true, { currentState := c, stateSetAt := now },
            some { previousState := m.currentState, newState := c, timestamp := now,
                   reason := reason,
                   isDegradation := StateManager.isDegradation m.currentState c })) := by
  refine ⟨?_, ?_, ?_⟩
  · intro h
    simp [StateManager.setState, h]
  · intro h
    subst h
    simp [StateManager.setState, isValidCapacity_toString m.currentState]
  · intro hv hne
    have hcases : newState = "foggy" ∨ newState = "anxious" ∨ newState = "flat" ∨
        newState = "overstimulated" ∨ newState = "driven" ∨ newState = "productive" := by
      simpa [isValidCapacity, CAPACITY_STATES, List.contains, List.elem_cons] using hv
    rcases hcases with h | h | h | h | h | h <;> subst h <;>
      exact ⟨_, rfl, by simp [StateManager.setState, hv, hne, parseCapacity]⟩

/-- C7: `degrade` is a `false` no-op when auto-degradation is disabled
or the fallback target equals the current state; otherwise it performs
`setState(fallbackTarget, "degradation triggered: " + trigger)` and
returns that call's result. -/
theorem degrade_semantics (m : ManagerState) (trigger : String) (now : Int) :
    ((StateManager.getConfig m).fallback.canAutoDegrade = false →
      StateManager.degrade m trigger now = (false, m, none)) ∧
    ((StateManager.getConfig m).fallback.fallbackState = capacityToString m.currentState →
      StateManager.degrade m trigger now = (false, m, none)) ∧
    ((StateManager.getConfig m).fallback.canAutoDegrade = true →
      (StateManager.getConfig m).fallback.fallbackState ≠ capacityToString m.currentState →
      StateManager.degrade m trigger now =
        StateManager.setState m (StateManager.getConfig m).fallback.fallbackState
          (some ("degradation triggered: " ++ trigger)) now) := by
  refine ⟨?_, ?_, ?_⟩
  · intro h
    simp [StateManager.degrade, h]
  · intro h
    simp [StateManager.degrade, h]
  · intro h hne
    simp [StateManager.degrade, h, Ne.symm hne]

/-- Witness for C6 at concrete inputs: an invalid name, a same-state
transition, and a successful transition. -/
theorem setState_semantics_witness :
    StateManager.setState { currentState := .foggy, stateSetAt := 0 } "invalid" none 5 =
      (false, { currentState := .foggy, stateSetAt := 0 }, none) ∧
    StateManager.setState { currentState := .foggy, stateSetAt := 0 } "foggy" none 5 =
      (false, { currentState := .foggy, stateSetAt := 0 }, none) ∧
    (∃ c, parseCapacity "driven" = some c ∧
      StateManager.setState { currentState := .foggy, stateSetAt := 0 } "driven" (some "r") 7 =
        (true, { currentState := c, stateSetAt := 7 },
          some { previousState := .foggy, newState := c, timestamp := 7, reason := some "r",
                 isDegradation := StateManager.isDegradation .foggy c })) :=
  ⟨(setState_semantics { currentState := .foggy, stateSetAt := 0 } "invalid" none 5).1
      (by decide),
   (setState_semantics { currentState := .foggy, stateSetAt := 0 } "foggy" none 5).2.1
      (by decide),
   (setState_semantics { currentState := .foggy, stateSetAt := 0 } "driven" (some "r") 7).2.2
      (by decide) (by decide)⟩

/-- Witness for C7 at concrete inputs: foggy blocks auto-degradation,
anxious degrades to foggy via `setState`. -/
theorem degrade_semantics_witness :
    StateManager.degrade { currentState := .foggy, stateSetAt := 0 } "overwhelm" 9 =
      (false, { currentState := .foggy, stateSetAt := 0 }, none) ∧
    StateManager.degrade { currentState := .anxious, stateSetAt := 0 } "overwhelm" 9 =
      StateManager.setState { currentState := .anxious, stateSetAt := 0 } "foggy"
        (some ("degradation triggered: " ++ "overwhelm")) 9 :=
  ⟨(degrade_semantics { currentState := .foggy, stateSetAt := 0 } "overwhelm" 9).1
      (by decide),
   (degrade_semantics { currentState := .anxious, stateSetAt := 0 } "overwhelm" 9).2.2
      (by decide) (by decide)⟩

/-! ### Calendar modulator lemmas -/

/-- Essential events are always honored. -/
theorem shouldHonor_essential (e : CalendarEvent) (ci : CalendarIntentConfig)
    (h : e.intent = .essential) : CalendarModulator.shouldHonorEvent e ci = true := by
  simp [CalendarModulator.shouldHonorEvent, h]

/-- Processing an honored essential event appends it to the active
list and adds its duration to the running total, whatever the running
total is. -/
theorem processEvents_essential_step (ci : CalendarIntentConfig) (wl : WorkloadConfig)
    (e : CalendarEvent) (h : e.intent = .essential) (es act canc : List CalendarEvent)
    (tot : ℚ) :
    CalendarModulator.processEvents ci wl (e :: es) act canc tot =
      CalendarModulator.processEvents ci wl es (act ++ [{ e with active := true }]) canc
        (tot + CalendarModulator.eventHours e) := by
  simp only [CalendarModulator.processEvents, shouldHonor_essential e ci h, if_true]
  by_cases hc : tot + CalendarModulator.eventHours e ≤ wl.maxCalendarHours
  · simp [hc]
  · simp [hc, h]

/-- An already sorted pair of events is left unchanged by the sort. -/
theorem sortPair_of_le {e1 e2 : CalendarEvent} (h : e1.startTime ≤ e2.startTime) :
    [e1, e2].mergeSort (fun a b => decide (a.startTime ≤ b.startTime)) = [e1, e2] :=
  List.mergeSort_of_sorted (by simp [h])

/-- C2: in `CalendarModulator.modulate`, an honored essential event is
admitted to `activeEvents` and its duration added to the running total
even when the hour cap would be exceeded, so a later honored
non-essential event's admission test runs against the inflated total. -/
theorem essential_overcap_inflates_total (cfg : StateConfig) (e1 e2 : CalendarEvent)
    (h1 : e1.intent = .essential)
    (h2hon : cfg.calendarIntent.honoredIntents.contains e2.intent = true)
    (h2 : e2.intent ≠ .essential)
    (hord : e1.startTime ≤ e2.startTime) :
    (∀ (es act canc : List CalendarEvent) (tot : ℚ),
      CalendarModulator.processEvents cfg.calendarIntent cfg.workload (e1 :: es) act canc tot =
        CalendarModulator.processEvents cfg.calendarIntent cfg.workload es
          (act ++ [{ e1 with active := true }]) canc
          (tot + CalendarModulator.eventHours e1)) ∧
    (CalendarModulator.eventHours e1 + CalendarModulator.eventHours e2 ≤
        cfg.workload.maxCalendarHours →
      (CalendarModulator.modulate [e1, e2] cfg).activeEvents =
          [{ e1 with active := true }, { e2 with active := true }] ∧
      (CalendarModulator.modulate [e1, e2] cfg).totalHours =
          CalendarModulator.eventHours e1 + CalendarModulator.eventHours e2) ∧
    (¬ CalendarModulator.eventHours e1 + CalendarModulator.eventHours e2 ≤
        cfg.workload.maxCalendarHours →
      (CalendarModulator.modulate [e1, e2] cfg).activeEvents = [{ e1 with active := true }] ∧
      (CalendarModulator.modulate [e1, e2] cfg).suggestedCancellations =
          [{ e2 with active := false }] ∧
      (CalendarModulator.modulate [e1, e2] cfg).totalHours = CalendarModulator.eventHours e1) := by
  have hmem2 : e2.intent ∈ cfg.calendarIntent.honoredIntents := by simpa using h2hon
  have hhon2 : CalendarModulator.shouldHonorEvent e2 cfg.calendarIntent = true := by
    simp [CalendarModulator.shouldHonorEvent, h2, hmem2]
  refine ⟨fun es act canc tot => processEvents_essential_step _ _ _ h1 es act canc tot, ?_, ?_⟩
  · intro hle
    simp only [CalendarModulator.modulate, sortPair_of_le hord,
      processEvents_essential_step _ _ _ h1, List.nil_append]
    simp only [CalendarModulator.processEvents, hhon2, if_true, zero_add]
    rw [if_pos hle]
    simp [CalendarModulator.processEvents]
  · intro hgt
    simp only [CalendarModulator.modulate, sortPair_of_le hord,
      processEvents_essential_step _ _ _ h1, List.nil_append]
    simp only [CalendarModulator.processEvents, hhon2, if_true, zero_add]
    rw [if_neg hgt]
    have h2beq : (e2.intent == EventIntent.essential) = false := by
      simpa using h2
    simp [h2beq, CalendarModulator.processEvents]

/-- Witness for C2: an eight-hour essential event under foggy's
two-hour cap is admitted; the following one-hour recovery event is
tested against the inflated nine-hour total and rejected. -/
theorem essential_overcap_inflates_total_witness :
    (CalendarModulator.modulate [demoBigEssential, demoRecovery] foggyConfig).activeEvents =
        [{ demoBigEssential with active := true }] ∧
    (CalendarModulator.modulate [demoBigEssential, demoRecovery] foggyConfig).suggestedCancellations =
        [{ demoRecovery with active := false }] ∧
    (CalendarModulator.modulate [demoBigEssential, demoRecovery] foggyConfig).totalHours =
        CalendarModulator.eventHours demoBigEssential :=
  (essential_overcap_inflates_total foggyConfig demoBigEssential demoRecovery rfl
      (by decide) (by decide)
      (by norm_num [demoBigEssential, demoRecovery])).2.2
    (by norm_num [CalendarModulator.eventHours, CalendarModulator.getEventDuration,
      demoBigEssential, demoRecovery, foggyConfig])

/-- C4 counterexample: a backwards one-hour event (end one hour before
start) is honored and reported with minus one total hour — it
contributes its negative duration, not zero, to `totalHours`. -/
theorem negative_duration_reported_hours :
    (CalendarModulator.modulate [negEvent] foggyConfig).totalHours = -1 := by
  simp only [CalendarModulator.modulate, List.mergeSort_singleton,
    processEvents_essential_step foggyConfig.calendarIntent foggyConfig.workload negEvent rfl,
    CalendarModulator.processEvents]
  norm_num [CalendarModulator.eventHours, CalendarModulator.getEventDuration, negEvent]

/-- C4 amended: an event with `endTime ≤ startTime` is legal input
with nonpositive duration, zero exactly when the endpoints coincide;
when admitted (cap satisfied or essential) it contributes exactly its
signed duration to the running total and to the reported
`totalHours`, and otherwise it contributes nothing. -/
theorem nonpositive_duration_contribution (e : CalendarEvent) (cfg : StateConfig)
    (hhon : CalendarModulator.shouldHonorEvent e cfg.calendarIntent = true)
    (hnp : e.endTime ≤ e.startTime) :
    CalendarModulator.eventHours e ≤ 0 ∧
    (CalendarModulator.eventHours e = 0 ↔ e.endTime = e.startTime) ∧
    (∀ (es act canc : List CalendarEvent) (tot : ℚ),
      (tot + CalendarModulator.eventHours e ≤ cfg.workload.maxCalendarHours ∨
          e.intent = .essential →
        CalendarModulator.processEvents cfg.calendarIntent cfg.workload (e :: es) act canc tot =
          CalendarModulator.processEvents cfg.calendarIntent cfg.workload es
            (act ++ [{ e with active := true }]) canc
            (tot + CalendarModulator.eventHours e)) ∧
      (¬ tot + CalendarModulator.eventHours e ≤ cfg.workload.maxCalendarHours →
          e.intent ≠ .essential →
        CalendarModulator.processEvents cfg.calendarIntent cfg.workload (e :: es) act canc tot =
          CalendarModulator.processEvents cfg.calendarIntent cfg.workload es act
            (canc ++ [{ e with active := false }]) tot)) ∧
    (CalendarModulator.eventHours e ≤ cfg.workload.maxCalendarHours ∨ e.intent = .essential →
      (CalendarModulator.modulate [e] cfg).totalHours = CalendarModulator.eventHours e) := by
  have hdur : CalendarModulator.eventHours e ≤ 0 := by
    have hsub : e.endTime - e.startTime ≤ 0 := sub_nonpos.mpr hnp
    have h1 : (e.endTime - e.startTime) / (1000 * 60) ≤ 0 :=
      div_nonpos_iff.mpr (Or.inr ⟨hsub, by norm_num⟩)
    exact div_nonpos_iff.mpr (Or.inr ⟨h1, by norm_num⟩)
  have hstep : ∀ (es act canc : List CalendarEvent) (tot : ℚ),
      (tot + CalendarModulator.eventHours e ≤ cfg.workload.maxCalendarHours ∨
          e.intent = .essential →
        CalendarModulator.processEvents cfg.calendarIntent cfg.workload (e :: es) act canc tot =
          CalendarModulator.processEvents cfg.calendarIntent cfg.workload es
            (act ++ [{ e with active := true }]) canc
            (tot + CalendarModulator.eventHours e)) ∧
      (¬ tot + CalendarModulator.eventHours e ≤ cfg.workload.maxCalendarHours →
          e.intent ≠ .essential →
        CalendarModulator.processEvents cfg.calendarIntent cfg.workload (e :: es) act canc tot =
          CalendarModulator.processEvents cfg.calendarIntent cfg.workload es act
            (canc ++ [{ e with active := false }]) tot) := by
    intro es act canc tot
    constructor
    · intro hadm
      by_cases hc : tot + CalendarModulator.eventHours e ≤ cfg.workload.maxCalendarHours
      · simp only [CalendarModulator.processEvents, hhon, if_true]
        rw [if_pos hc]
      · rcases hadm with hadm | hess
        · exact absurd hadm hc
        · exact processEvents_essential_step _ _ _ hess es act canc tot
    · intro hc hne
      have hbeq : (e.intent == EventIntent.essential) = false := by simpa using hne
      simp only [CalendarModulator.processEvents, hhon, if_true]
      rw [if_neg hc]
      simp [hbeq]
  refine ⟨hdur, ?_, hstep, ?_⟩
  · unfold CalendarModulator.eventHours CalendarModulator.getEventDuration
    rw [div_div]
    constructor
    · intro h
      have := (div_eq_zero_iff.mp h).resolve_right (by norm_num)
      linarith [sub_eq_zero.mp this]
    · intro h
      simp [h]
  · intro hadm
    have hadm0 : (0 : ℚ) + CalendarModulator.eventHours e ≤ cfg.workload.maxCalendarHours ∨
        e.intent = .essential := by
      rcases hadm with h | h
      · exact Or.inl (by simpa using h)
      · exact Or.inr h
    simp only [CalendarModulator.modulate, List.mergeSort_singleton,
      (hstep [] [] [] 0).1 hadm0, CalendarModulator.processEvents]
    ring

/-- Witness for C4's amended claim at the concrete backwards event. -/
theorem nonpositive_duration_contribution_witness :
    CalendarModulator.eventHours negEvent ≤ 0 ∧
    (CalendarModulator.modulate [negEvent] foggyConfig).totalHours =
      CalendarModulator.eventHours negEvent :=
  ⟨(nonpositive_duration_contribution negEvent foggyConfig (by decide)
      (by norm_num [negEvent])).1,
   (nonpositive_duration_contribution negEvent foggyConfig (by decide)
      (by norm_num [negEvent])).2.2.2
     (Or.inr rfl)⟩

/-- The code's buffer generator computes exactly the per-adjacent-pair
rule, pair by pair over the list. -/
theorem generateRecoveryBuffers_eq_pairwise (b : ℚ) :
    ∀ es : List CalendarEvent,
      CalendarModulator.generateRecoveryBuffers b es =
        (es.zip es.tail).filterMap (fun p => CalendarModulator.pairBufferRule b p.1 p.2)
  | [] => by simp [CalendarModulator.generateRecoveryBuffers]
  | [e] => by simp [CalendarModulator.generateRecoveryBuffers]
  | e1 :: e2 :: rest => by
    have ih := generateRecoveryBuffers_eq_pairwise b (e2 :: rest)
    simp only [CalendarModulator.generateRecoveryBuffers, CalendarModulator.pairBufferRule,
      List.tail_cons, List.zip_cons_cons, List.filterMap_cons]
    by_cases hb : b ≤ (e2.startTime - e1.endTime) / (1000 * 60)
    · simp only [if_pos hb, ih]
      rfl
    · by_cases hg : 0 < (e2.startTime - e1.endTime) / (1000 * 60)
      · simp only [if_neg hb, if_pos hg, ih]
        rfl
      · simp only [if_neg hb, if_neg hg, ih]
        rfl

/-- C5: when `addRecoveryBuffers` is set, the modulation result's
buffers are exactly the per-adjacent-pair rule applied along the final
time-ordered `activeEvents` sequence: one full `bufferMinutes` buffer
per gap of at least `bufferMinutes`, one gap-length buffer per smaller
positive gap, and none per nonpositive gap. -/
theorem recoveryBuffers_adjacent_pairs (events : List CalendarEvent) (cfg : StateConfig)
    (h : cfg.calendarIntent.addRecoveryBuffers = true) :
    (CalendarModulator.modulate events cfg).recoveryBuffers =
      ((CalendarModulator.modulate events cfg).activeEvents.zip
          (CalendarModulator.modulate events cfg).activeEvents.tail).filterMap
        (fun p => CalendarModulator.pairBufferRule cfg.calendarIntent.bufferMinutes p.1 p.2) := by
  simp only [CalendarModulator.modulate, h, if_true]
  exact generateRecoveryBuffers_eq_pairwise _ _

/-- Witness for C5 at two concrete events with a 15-minute gap under
foggy's 30-minute buffer configuration. -/
theorem recoveryBuffers_adjacent_pairs_witness :
    foggyConfig.calendarIntent.addRecoveryBuffers = true ∧
    (CalendarModulator.modulate [demoE1, demoE2] foggyConfig).recoveryBuffers =
      ((CalendarModulator.modulate [demoE1, demoE2] foggyConfig).activeEvents.zip
          (CalendarModulator.modulate [demoE1, demoE2] foggyConfig).activeEvents.tail).filterMap
        (fun p => CalendarModulator.pairBufferRule foggyConfig.calendarIntent.bufferMinutes
          p.1 p.2) :=
  ⟨rfl, recoveryBuffers_adjacent_pairs [demoE1, demoE2] foggyConfig rfl⟩

/-! ### Task modulator lemmas -/

theorem sumMinutes_nil : sumMinutes [] = 0 := rfl

theorem sumMinutes_cons (t : Task) (l : List Task) :
    sumMinutes (t :: l) = taskMinutes t + sumMinutes l := by
  simp [sumMinutes]

theorem taskMinutes_stamp (t : Task) (b : Bool) :
    taskMinutes { t with visible := b } = taskMinutes t := rfl

theorem sumMinutes_map_stamp (l : List Task) (b : Bool) :
    sumMinutes (l.map (fun t => { t with visible := b })) = sumMinutes l := by
  induction l with
  | nil => rfl
  | cons t l ih => simp [sumMinutes_cons, ih, taskMinutes]

theorem minutesAt_cons_zero (t : Task) (l : List Task) :
    minutesAt (t :: l) 0 = taskMinutes t := rfl

theorem minutesAt_cons_succ (t : Task) (l : List Task) (i : Nat) :
    minutesAt (t :: l) (i + 1) = minutesAt l i := rfl

theorem sumMinutes_take_succ (l : List Task) (i : Nat) (h : i < l.length) :
    sumMinutes (l.take (i + 1)) = sumMinutes (l.take i) + minutesAt l i := by
  induction l generalizing i with
  | nil => simp at h
  | cons t l ih =>
    cases i with
    | zero => simp [sumMinutes_cons, minutesAt_cons_zero, sumMinutes]
    | succ j =>
      simp only [List.take_succ_cons, sumMinutes_cons, minutesAt_cons_succ]
      rw [ih j (by simpa using h)]
      omega

/-- Complete characterization of the admission loop: it admits a
contiguous front segment of the list, each admitted task passing both
bounds against the running count and total, stops at the first
failure, and reports the limit flag exactly when it stopped early. -/
theorem admitLoop_spec (maxV maxD : Nat) :
    ∀ (ts acc : List Task) (total : Nat),
      ∃ k, k ≤ ts.length ∧
        TaskModulator.admitLoop maxV maxD ts acc total =
          (acc ++ (ts.take k).map (fun t => { t with visible := true }),
            total + sumMinutes (ts.take k), decide (k < ts.length)) ∧
        (∀ i, i < k → acc.length + i < maxV ∧
          total + sumMinutes (ts.take i) + minutesAt ts i ≤ maxD) ∧
        (k < ts.length →
          ¬(acc.length + k < maxV ∧
            total + sumMinutes (ts.take k) + minutesAt ts k ≤ maxD))
  | [], acc, total =>
    ⟨0, by simp, by simp [TaskModulator.admitLoop, sumMinutes], by simp, by simp⟩
  | t :: ts, acc, total => by
    by_cases h1 : maxV ≤ acc.length
    · refine ⟨0, by simp, ?_, by simp, ?_⟩
      · simp [TaskModulator.admitLoop, h1, sumMinutes]
      · intro _ hc
        omega
    · by_cases h2 : maxD < total + taskMinutes t
      · refine ⟨0, by simp, ?_, by simp, ?_⟩
        · simp [TaskModulator.admitLoop, h1, h2, sumMinutes]
        · intro _ hc
          rcases hc with ⟨_, hle⟩
          rw [List.take_zero, sumMinutes_nil, minutesAt_cons_zero] at hle
          omega
      · obtain ⟨k, hk, heq, hcond, hfail⟩ :=
          admitLoop_spec maxV maxD ts (acc ++ [{ t with visible := true }])
            (total + taskMinutes t)
        refine ⟨k + 1, by simpa using hk, ?_, ?_, ?_⟩
        · simp only [TaskModulator.admitLoop, if_neg h1, if_neg h2]
          rw [heq]
          simp [List.take_succ_cons, sumMinutes_cons, List.append_assoc, Nat.add_assoc,
            Nat.succ_lt_succ_iff]
        · intro i hi
          cases i with
          | zero =>
            refine ⟨by omega, ?_⟩
            rw [List.take_zero, sumMinutes_nil, minutesAt_cons_zero]
            omega
          | succ j =>
            obtain ⟨ha, hb⟩ := hcond j (by omega)
            rw [List.length_append, List.length_cons, List.length_nil] at ha
            refine ⟨by omega, ?_⟩
            rw [List.take_succ_cons, sumMinutes_cons, minutesAt_cons_succ]
            omega
        · intro hlt hc
          have hk2 : k < ts.length := by
            simp only [List.length_cons, Nat.add_lt_add_iff_right] at hlt
            exact hlt
          rcases hc with ⟨ha, hb⟩
          rw [List.take_succ_cons, sumMinutes_cons, minutesAt_cons_succ] at hb
          exact hfail hk2 ⟨by simp; omega, by omega⟩

theorem modulate_visibleTasks_def (tasks : List Task) (config : StateConfig) :
    (TaskModulator.modulate tasks config).visibleTasks =
      (TaskModulator.admitLoop config.taskVisibility.maxVisibleTasks
        config.workload.maxDailyMinutes (TaskModulator.sortedEligible tasks config) [] 0).1 :=
  rfl

theorem modulate_totalMinutes_def (tasks : List Task) (config : StateConfig) :
    (TaskModulator.modulate tasks config).totalMinutes =
      (TaskModulator.admitLoop config.taskVisibility.maxVisibleTasks
        config.workload.maxDailyMinutes (TaskModulator.sortedEligible tasks config) [] 0).2.1 :=
  rfl

theorem modulate_limit_def (tasks : List Task) (config : StateConfig) :
    (TaskModulator.modulate tasks config).workloadLimitReached =
      (TaskModulator.admitLoop config.taskVisibility.maxVisibleTasks
        config.workload.maxDailyMinutes (TaskModulator.sortedEligible tasks config) [] 0).2.2 :=
  rfl

theorem modulate_hiddenTasks_def (tasks : List Task) (config : StateConfig) :
    (TaskModulator.modulate tasks config).hiddenTasks =
      (tasks.filter (fun t =>
        !((TaskModulator.modulate tasks config).visibleTasks.any
          (fun v => v.id == t.id)))).map (fun t => { t with visible := false }) :=
  rfl

/-- C3: admission in `TaskModulator.modulate` is a single contiguous
front segment of the sorted eligible list: each admitted task passes
the count bound and the minute bound, the first failing task stops
admission entirely and sets `workloadLimitReached`, and the flag stays
false when no task fails. -/
theorem taskModulator_admission_front_segment (tasks : List Task) (config : StateConfig) :
    ∃ k, k ≤ (TaskModulator.sortedEligible tasks config).length ∧
      (TaskModulator.modulate tasks config).visibleTasks =
        ((TaskModulator.sortedEligible tasks config).take k).map
          (fun t => { t with visible := true }) ∧
      (TaskModulator.modulate tasks config).totalMinutes =
        sumMinutes ((TaskModulator.sortedEligible tasks config).take k) ∧
      (∀ i, i < k → i < config.taskVisibility.maxVisibleTasks ∧
        sumMinutes ((TaskModulator.sortedEligible tasks config).take i) +
          minutesAt (TaskModulator.sortedEligible tasks config) i ≤
          config.workload.maxDailyMinutes) ∧
      (TaskModulator.modulate tasks config).workloadLimitReached =
        decide (k < (TaskModulator.sortedEligible tasks config).length) ∧
      (k < (TaskModulator.sortedEligible tasks config).length →
        ¬(k < config.taskVisibility.maxVisibleTasks ∧
          sumMinutes ((TaskModulator.sortedEligible tasks config).take k) +
            minutesAt (TaskModulator.sortedEligible tasks config) k ≤
            config.workload.maxDailyMinutes)) := by
  obtain ⟨k, hk, heq, hcond, hfail⟩ := admitLoop_spec config.taskVisibility.maxVisibleTasks
    config.workload.maxDailyMinutes (TaskModulator.sortedEligible tasks config) [] 0
  refine ⟨k, hk, ?_, ?_, ?_, ?_, ?_⟩
  · rw [modulate_visibleTasks_def, heq]
    simp
  · rw [modulate_totalMinutes_def, heq]
    simp
  · intro i hi
    simpa using hcond i hi
  · rw [modulate_limit_def, heq]
  · intro hk2 hc
    exact hfail hk2 (by simpa using hc)

/-- Witness for C3 at a concrete input. -/
theorem taskModulator_admission_front_segment_witness :
    ∃ k, k ≤ (TaskModulator.sortedEligible demoTasks foggyConfig).length ∧
      (TaskModulator.modulate demoTasks foggyConfig).visibleTasks =
        ((TaskModulator.sortedEligible demoTasks foggyConfig).take k).map
          (fun t => { t with visible := true }) ∧
      (TaskModulator.modulate demoTasks foggyConfig).totalMinutes =
        sumMinutes ((TaskModulator.sortedEligible demoTasks foggyConfig).take k) ∧
      (∀ i, i < k → i < foggyConfig.taskVisibility.maxVisibleTasks ∧
        sumMinutes ((TaskModulator.sortedEligible demoTasks foggyConfig).take i) +
          minutesAt (TaskModulator.sortedEligible demoTasks foggyConfig) i ≤
          foggyConfig.workload.maxDailyMinutes) ∧
      (TaskModulator.modulate demoTasks foggyConfig).workloadLimitReached =
        decide (k < (TaskModulator.sortedEligible demoTasks foggyConfig).length) ∧
      (k < (TaskModulator.sortedEligible demoTasks foggyConfig).length →
        ¬(k < foggyConfig.taskVisibility.maxVisibleTasks ∧
          sumMinutes ((TaskModulator.sortedEligible demoTasks foggyConfig).take k) +
            minutesAt (TaskModulator.sortedEligible demoTasks foggyConfig) k ≤
            foggyConfig.workload.maxDailyMinutes)) :=
  taskModulator_admission_front_segment demoTasks foggyConfig

/-- C1: the visible list never exceeds the configured count cap, the
visible minutes never exceed the daily minute cap, and every hidden
task carries `visible = false`. -/
theorem taskModulator_visible_bounds (tasks : List Task) (config : StateConfig) :
    (TaskModulator.modulate tasks config).visibleTasks.length ≤
      config.taskVisibility.maxVisibleTasks ∧
    sumMinutes (TaskModulator.modulate tasks config).visibleTasks ≤
      config.workload.maxDailyMinutes ∧
    (TaskModulator.modulate tasks config).hiddenTasks.all
      (fun t => t.visible == false) = true := by
  obtain ⟨k, hk, heq, hcond, -⟩ := admitLoop_spec config.taskVisibility.maxVisibleTasks
    config.workload.maxDailyMinutes (TaskModulator.sortedEligible tasks config) [] 0
  have hvis : (TaskModulator.modulate tasks config).visibleTasks =
      ((TaskModulator.sortedEligible tasks config).take k).map
        (fun t => { t with visible := true }) := by
    rw [modulate_visibleTasks_def, heq]
    simp
  refine ⟨?_, ?_, ?_⟩
  · rw [hvis, List.length_map, List.length_take]
    cases k with
    | zero => simp
    | succ j =>
      have := (hcond j (Nat.lt_succ_self j)).1
      simp only [List.length_nil, Nat.zero_add] at this
      omega
  · rw [hvis, sumMinutes_map_stamp]
    cases k with
    | zero => simp [sumMinutes]
    | succ j =>
      have hj : j < (TaskModulator.sortedEligible tasks config).length := by omega
      have h2 := (hcond j (Nat.lt_succ_self j)).2
      simp only [Nat.zero_add] at h2
      rw [sumMinutes_take_succ _ j hj]
      omega
  · rw [modulate_hiddenTasks_def]
    simp only [List.all_eq_true, List.mem_map]
    rintro x ⟨t, ht, rfl⟩
    rfl

/-- Tasks of a list with pairwise distinct ids are determined by
their ids. -/
theorem eq_of_id_nodup {l : List Task} (h : (l.map Task.id).Nodup) :
    ∀ a ∈ l, ∀ b ∈ l, a.id = b.id → a = b := by
  induction l with
  | nil => simp
  | cons x l ih =>
    simp only [List.map_cons, List.nodup_cons] at h
    obtain ⟨hx, hl⟩ := h
    intro a ha b hb hid
    rcases List.mem_cons.mp ha with rfl | ha2
    · rcases List.mem_cons.mp hb with rfl | hb2
      · rfl
      · refine absurd ?_ hx
        rw [hid]
        exact List.mem_map_of_mem Task.id hb2
    · rcases List.mem_cons.mp hb with rfl | hb2
      · refine absurd ?_ hx
        rw [← hid]
        exact List.mem_map_of_mem Task.id ha2
      · exact ih hl a ha2 b hb2 hid

/-- Every visible task is an input task stamped visible. -/
theorem visible_mem_shape (tasks : List Task) (config : StateConfig) :
    ∀ v ∈ (TaskModulator.modulate tasks config).visibleTasks,
      ∃ u, u ∈ tasks ∧ v = { u with visible := true } := by
  obtain ⟨k, hk, heq, -, -⟩ := admitLoop_spec config.taskVisibility.maxVisibleTasks
    config.workload.maxDailyMinutes (TaskModulator.sortedEligible tasks config) [] 0
  intro v hv
  rw [modulate_visibleTasks_def, heq] at hv
  simp only [List.nil_append] at hv
  obtain ⟨u, hu, rfl⟩ := List.mem_map.mp hv
  refine ⟨u, ?_, rfl⟩
  have h1 : u ∈ TaskModulator.sortedEligible tasks config := List.mem_of_mem_take hu
  unfold TaskModulator.sortedEligible TaskModulator.sortByPriority at h1
  have h2 := List.mem_mergeSort.mp h1
  exact (List.mem_filter.mp h2).1

/-- Splitting a list by a boolean predicate preserves its length. -/
theorem length_filter_add_length_filter_not {α : Type} (p : α → Bool) (l : List α) :
    (l.filter p).length + (l.filter (fun a => !(p a))).length = l.length := by
  induction l with
  | nil => rfl
  | cons x l ih => cases hx : p x <;> simp [List.filter_cons, hx, ← ih] <;> omega

/-- The ids of the visible tasks, as computed from the admitted front
segment. -/
theorem visible_ids_eq (tasks : List Task) (config : StateConfig) :
    ∃ k, (TaskModulator.modulate tasks config).visibleTasks.map Task.id =
      (((TaskModulator.sortedEligible tasks config).take k).map Task.id) := by
  obtain ⟨k, hk, heq, -, -⟩ := admitLoop_spec config.taskVisibility.maxVisibleTasks
    config.workload.maxDailyMinutes (TaskModulator.sortedEligible tasks config) [] 0
  refine ⟨k, ?_⟩
  rw [modulate_visibleTasks_def, heq]
  simp [List.map_map]
  rfl

/-- The sorted eligible list draws its ids from the input, without
introducing duplicates. -/
theorem sortedEligible_ids_nodup (tasks : List Task) (config : StateConfig)
    (hnd : (tasks.map Task.id).Nodup) :
    ((TaskModulator.sortedEligible tasks config).map Task.id).Nodup := by
  have hperm : List.Perm (TaskModulator.sortedEligible tasks config)
      (tasks.filter (fun t => TaskModulator.isTaskEligible t config.taskVisibility
        config.workload)) := by
    unfold TaskModulator.sortedEligible TaskModulator.sortByPriority
    exact List.mergeSort_perm _ _
  have hsub : List.Sublist ((tasks.filter (fun t => TaskModulator.isTaskEligible t
      config.taskVisibility config.workload)).map Task.id) (tasks.map Task.id) :=
    (List.filter_sublist tasks).map Task.id
  exact ((hperm.map Task.id).nodup_iff).mpr (hsub.nodup hnd)

/-- C10: `hiddenTasks` is exactly the input tasks whose id matches no
visible task, stamped invisible; under pairwise-distinct ids the two
output lists partition the input, and a task whose id is taken by an
admitted visible task appears in neither output list. -/
theorem taskModulator_hidden_partition (tasks : List Task) (config : StateConfig) :
    (TaskModulator.modulate tasks config).hiddenTasks =
      (tasks.filter (fun t =>
        !((TaskModulator.modulate tasks config).visibleTasks.any
          (fun v => v.id == t.id)))).map (fun t => { t with visible := false }) ∧
    ((tasks.map Task.id).Nodup →
      tasks.length = (TaskModulator.modulate tasks config).visibleTasks.length +
          (TaskModulator.modulate tasks config).hiddenTasks.length ∧
      ∀ t ∈ tasks,
        ({ t with visible := true } ∈ (TaskModulator.modulate tasks config).visibleTasks ∧
          { t with visible := false } ∉ (TaskModulator.modulate tasks config).hiddenTasks) ∨
        ({ t with visible := true } ∉ (TaskModulator.modulate tasks config).visibleTasks ∧
          { t with visible := false } ∈ (TaskModulator.modulate tasks config).hiddenTasks)) ∧
    (∀ t ∈ tasks,
      { t with visible := true } ∉ (TaskModulator.modulate tasks config).visibleTasks →
      (∃ v ∈ (TaskModulator.modulate tasks config).visibleTasks, v.id = t.id) →
      { t with visible := false } ∉ (TaskModulator.modulate tasks config).hiddenTasks) := by
  have hnotin : ∀ t : Task,
      (∃ v ∈ (TaskModulator.modulate tasks config).visibleTasks, v.id = t.id) →
      { t with visible := false } ∉ (TaskModulator.modulate tasks config).hiddenTasks := by
    rintro t ⟨v, hv, hvid⟩ hmem
    rw [modulate_hiddenTasks_def] at hmem
    obtain ⟨w, hwmem, hweq⟩ := List.mem_map.mp hmem
    have hwid : w.id = t.id := by
      have := congrArg Task.id hweq
      simpa using this
    have hpred := (List.mem_filter.mp hwmem).2
    rw [Bool.not_eq_true'] at hpred
    have hfalse : ¬ ((TaskModulator.modulate tasks config).visibleTasks.any
        (fun x => x.id == w.id) = true) := by
      simp [hpred]
    exact hfalse (List.any_eq_true.mpr ⟨v, hv, by simp [hvid, hwid]⟩)
  refine ⟨rfl, ?_, fun t _ _ hex => hnotin t hex⟩
  intro hnd
  constructor
  · -- the two output lists split the input by length
    obtain ⟨k, hVids⟩ := visible_ids_eq tasks config
    have hVnodup : ((TaskModulator.modulate tasks config).visibleTasks.map Task.id).Nodup := by
      rw [hVids]
      have h1 := sortedEligible_ids_nodup tasks config hnd
      have h2 : List.Sublist
          (((TaskModulator.sortedEligible tasks config).take k).map Task.id)
          ((TaskModulator.sortedEligible tasks config).map Task.id) :=
        (List.take_sublist k _).map Task.id
      exact h2.nodup h1
    have hVsub : ∀ x ∈ (TaskModulator.modulate tasks config).visibleTasks.map Task.id,
        x ∈ tasks.map Task.id := by
      intro x hx
      obtain ⟨v, hv, rfl⟩ := List.mem_map.mp hx
      obtain ⟨u, hu, rfl⟩ := visible_mem_shape tasks config v hv
      have := List.mem_map_of_mem Task.id hu
      simpa using this
    have hq : ∀ t : Task,
        ((TaskModulator.modulate tasks config).visibleTasks.any (fun v => v.id == t.id)) =
          decide (t.id ∈ (TaskModulator.modulate tasks config).visibleTasks.map Task.id) := by
      intro t
      rw [Bool.eq_iff_iff]
      simp [List.any_eq_true, List.mem_map]
    have hcount : (tasks.filter (fun t =>
        (TaskModulator.modulate tasks config).visibleTasks.any
          (fun v => v.id == t.id))).length =
        ((TaskModulator.modulate tasks config).visibleTasks.map Task.id).length := by
      rw [List.filter_congr (fun t _ => hq t), ← List.countP_eq_length_filter]
      have h2 : tasks.countP (fun t =>
          decide (t.id ∈ (TaskModulator.modulate tasks config).visibleTasks.map Task.id)) =
          (tasks.map Task.id).countP (fun x =>
            decide (x ∈ (TaskModulator.modulate tasks config).visibleTasks.map Task.id)) := by
        rw [List.countP_map]
        rfl
      rw [h2, List.countP_eq_length_filter]
      have hFnodup : ((tasks.map Task.id).filter (fun x =>
          decide (x ∈ (TaskModulator.modulate tasks config).visibleTasks.map Task.id))).Nodup :=
        hnd.filter _
      have hFV : ∀ x, x ∈ (tasks.map Task.id).filter (fun x =>
          decide (x ∈ (TaskModulator.modulate tasks config).visibleTasks.map Task.id)) ↔
          x ∈ (TaskModulator.modulate tasks config).visibleTasks.map Task.id := by
        intro x
        rw [List.mem_filter]
        simp only [decide_eq_true_eq]
        constructor
        · rintro ⟨-, hx⟩
          exact hx
        · intro hx
          exact ⟨hVsub x hx, hx⟩
      have hsub1 := (hFnodup.subperm (fun x hx => (hFV x).mp hx)).length_le
      have hsub2 := (hVnodup.subperm (fun x hx => (hFV x).mpr hx)).length_le
      omega
    have hsplit := length_filter_add_length_filter_not (fun t =>
      (TaskModulator.modulate tasks config).visibleTasks.any (fun v => v.id == t.id)) tasks
    have hhid : (TaskModulator.modulate tasks config).hiddenTasks.length =
        (tasks.filter (fun t =>
          !((TaskModulator.modulate tasks config).visibleTasks.any
            (fun v => v.id == t.id)))).length := by
      rw [modulate_hiddenTasks_def, List.length_map]
    have hvlen : (TaskModulator.modulate tasks config).visibleTasks.length =
        ((TaskModulator.modulate tasks config).visibleTasks.map Task.id).length :=
      (List.length_map _ _).symm
    omega
  · -- pointwise partition
    intro t ht
    by_cases hex : ∃ v ∈ (TaskModulator.modulate tasks config).visibleTasks, v.id = t.id
    · left
      obtain ⟨v, hv, hvid⟩ := hex
      obtain ⟨u, hu, rfl⟩ := visible_mem_shape tasks config v hv
      have hut : u = t := eq_of_id_nodup hnd u hu t ht hvid
      subst hut
      exact ⟨hv, hnotin u ⟨_, hv, rfl⟩⟩
    · right
      constructor
      · intro hmem
        exact hex ⟨_, hmem, rfl⟩
      · rw [modulate_hiddenTasks_def]
        apply List.mem_map.mpr
        refine ⟨t, List.mem_filter.mpr ⟨ht, ?_⟩, rfl⟩
        rw [Bool.not_eq_true']
        by_contra hany
        rw [Bool.not_eq_false, List.any_eq_true] at hany
        obtain ⟨v, hv, hvid⟩ := hany
        exact hex ⟨v, hv, by simpa using hvid⟩

/-- Witness for C10 at a concrete input with distinct ids: the two
output lists split the four input tasks. -/
theorem taskModulator_hidden_partition_witness :
    demoTasks.length =
      (TaskModulator.modulate demoTasks foggyConfig).visibleTasks.length +
        (TaskModulator.modulate demoTasks foggyConfig).hiddenTasks.length :=
  ((taskModulator_hidden_partition demoTasks foggyConfig).2.1 (by decide)).1

end LifeOS
